import Mathlib

/-!
Verification development for `scripts/preload_models.py` (InvokeAI model
provisioning tool).  The script's provisioning core — catalog, fetch,
legacy migration, and config synthesis with atomic persistence — is
shallowly embedded below.  Python dicts become ordered association
lists (insertion order preserved, unique keys), the filesystem becomes
a finite map from paths to file data, and the remote Hugging Face hub
becomes an oracle returning either a blob or a failure.
-/

namespace Preload

/-- YAML scalar values appearing in a model stanza of `models.yaml`. -/
inductive YamlVal where
  | str (s : String)
  | nat (n : Nat)
  | bool (b : Bool)
  deriving DecidableEq, Repr

/-- A stanza: ordered field-name-to-value mapping (a Python dict). -/
abbrev Stanza := List (String × YamlVal)

/-- A config: ordered model-name-to-stanza mapping (OmegaConf document). -/
abbrev Config := List (String × Stanza)

/-- Dict lookup: first binding of the key, if any. -/
def alookup {α : Type} : List (String × α) → String → Option α
  | [], _ => none
  | (k, v) :: rest, key => if k = key then some v else alookup rest key

/-- Dict assignment `d[key] = v`: update in place if the key is present
(keeping its position, as Python dicts do), else append at the end. -/
def dictInsert {α : Type} : List (String × α) → String → α → List (String × α)
  | [], key, v => [(key, v)]
  | (k, w) :: rest, key, v =>
    if k = key then (k, v) :: rest else (k, w) :: dictInsert rest key v

/-- Dict `d.pop(key, None)`: drop the binding of the key, if present.
A dict holds at most one binding per key, so dropping every binding of
the key is the same operation. -/
def dictPop {α : Type} (d : List (String × α)) (key : String) : List (String × α) :=
  d.filter fun p => p.1 != key

/-- The keys of a dict, in insertion order. -/
def dictKeys {α : Type} (d : List (String × α)) : List String := d.map Prod.fst

/-- One catalog entry of the `Datasets` table. -/
structure DatasetEntry where
  description : String
  repo_id : String
  config : String
  file : String
  recommended : Bool
  width : Nat
  height : Nat
  deriving DecidableEq, Repr

abbrev Catalog := List (String × DatasetEntry)

def Model_dir : String := "./models/ldm/stable-diffusion-v1/"

def Config_file : String := "./configs/models.yaml"

def SD_Configs : String := "./configs/stable-diffusion"

/-- The static catalog `Datasets` of the script, verbatim. -/
def Datasets : Catalog := [
  ("stable-diffusion-1.5",
   { description := "The newest Stable Diffusion version 1.5 weight file (4.27 GB)",
     repo_id := "runwayml/stable-diffusion-v1-5",
     config := "v1-inference.yaml",
     file := "v1-5-pruned-emaonly.ckpt",
     recommended := true, width := 512, height := 512 }),
  ("inpainting-1.5",
   { description := "RunwayML SD 1.5 model optimized for inpainting (4.27 GB)",
     repo_id := "runwayml/stable-diffusion-inpainting",
     config := "v1-inpainting-inference.yaml",
     file := "sd-v1-5-inpainting.ckpt",
     recommended := true, width := 512, height := 512 }),
  ("stable-diffusion-1.4",
   { description := "The original Stable Diffusion version 1.4 weight file (4.27 GB)",
     repo_id := "CompVis/stable-diffusion-v-1-4-original",
     config := "v1-inference.yaml",
     file := "sd-v1-4.ckpt",
     recommended := false, width := 512, height := 512 }),
  ("waifu-diffusion-1.3",
   { description := "Stable Diffusion 1.4 fine tuned on anime-styled images (4.27)",
     repo_id := "hakurei/waifu-diffusion-v1-3",
     config := "v1-inference.yaml",
     file := "model-epoch09-float32.ckpt",
     recommended := false, width := 512, height := 512 }),
  ("ft-mse-improved-autoencoder-840000",
   { description := "StabilityAI improved autoencoder fine-tuned for human faces (recommended; 335 MB)",
     repo_id := "stabilityai/sd-vae-ft-mse-original",
     config := "VAE",
     file := "vae-ft-mse-840000-ema-pruned.ckpt",
     recommended := true, width := 512, height := 512 })]

def Config_preamble : String :=
  "# This file describes the alternative machine learning models\n# available to InvokeAI script.\n#\n# To add a new model, follow the examples below. Each\n# model requires a model config file, a weights file,\n# and the width and height of the images it\n# was trained on.\n"

/-- `os.path.join` for a directory and a relative file name, as used by
the script (the second component is always a plain file name): insert a
separator unless the directory already ends in one. -/
def pathJoin (a b : String) : String :=
  if a.data.getLast? = some '/' then a ++ b else a ++ "/" ++ b

/-- `os.path.join(os.path.dirname(Config_file), 'new_config.tmp')`:
the temporary file written before the atomic rename. -/
def Tmp_file : String := "./configs/new_config.tmp"

/-- Contents of a file: either a structured YAML config document (the
preamble comment block plus the stanza mapping), or an opaque blob
(model weights and other binary files). -/
inductive FileData where
  | config (preamble : String) (stanzas : Config)
  | blob (id : Nat)
  deriving DecidableEq, Repr

/-- The filesystem: a finite map from paths to file contents. -/
abbrev FS := List (String × FileData)

def fsRead (fs : FS) (p : String) : Option FileData := alookup fs p

def fsWrite (fs : FS) (p : String) (d : FileData) : FS := dictInsert fs p d

def fsExists (fs : FS) (p : String) : Bool := (fsRead fs p).isSome

def fsRemove (fs : FS) (p : String) : FS := dictPop fs p

/-- `os.rename(src, dst)`: move the file at `src` over `dst` in one
step.  In the model a rename of a missing source leaves the filesystem
unchanged; all call sites rename files they just created or checked. -/
def fsRename (fs : FS) (src dst : String) : FS :=
  match fsRead fs src with
  | none => fs
  | some d => fsWrite (fsRemove fs src) dst d

/-- `OmegaConf.load` applied to the file's bytes: succeeds exactly on a
structured config document. -/
def loadYaml : FileData → Option Config
  | .config _ c => some c
  | .blob _ => none

/-- Spec-level outcome of one fetch (§3 FetchResult). -/
inductive FetchStatus where
  | ALREADY_PRESENT
  | DOWNLOADED
  | FAILED
  deriving DecidableEq, Repr

/-- The remote store: `(repo_id, filename, access_token)` either yields
a blob (a successful `hf_hub_download`) or fails (`none` covers network
errors, authorization failures and missing remote objects — every
exception the script's `try` block catches). -/
abbrev Remote := String → String → String → Option Nat

/-- Result of `conditional_download`: the Boolean the Python function
returns, the spec-level status it corresponds to, the filesystem after
the call, and whether the network was touched. -/
structure FetchOutcome where
  success : Bool
  status : FetchStatus
  fs : FS
  network : Bool
  deriving Repr

/-- `conditional_download(repo_id, model_name, access_token)`
(preload_models.py lines 237-251): return `True` immediately when the
destination exists; otherwise download into the cache and link to the
destination, catching any exception and returning `False`. -/
def conditional_download (remote : Remote) (access_token : String)
    (fs : FS) (repo_id model_name : String) : FetchOutcome :=
  let model_dest := pathJoin Model_dir model_name
  if fsExists fs model_dest then
    { success := true, status := .ALREADY_PRESENT, fs := fs, network := false }
  else
    match remote repo_id model_name access_token with
    | some blob =>
      { success := true, status := .DOWNLOADED,
        fs := fsWrite fs model_dest (.blob blob), network := true }
    | none =>
      { success := false, status := .FAILED, fs := fs, network := true }

/-- `migrate_models_ckpt()` (lines 208-216): if a legacy `model.ckpt`
exists in the model directory, and the operator consents, rename it to
the canonical file name of `stable-diffusion-1.4`. -/
def migrate_models_ckpt (consent : Bool) (fs : FS) : FS :=
  if fsExists fs (pathJoin Model_dir "model.ckpt") then
    match alookup Datasets "stable-diffusion-1.4" with
    | none => fs
    | some e =>
      if consent then
        fsRename fs (pathJoin Model_dir "model.ckpt") (pathJoin Model_dir e.file)
      else fs
  else fs

/-- The fetch loop of `download_weight_datasets` (lines 221-231):
accumulate the success set in plan order, recording each item's
outcome.  `Datasets[mod]` on an unknown name raises a `KeyError`
outside any handler, aborting the run: modelled as `.error` carrying
the filesystem at the point of the raise. -/
def download_items (remote : Remote) (access_token : String) :
    List String → FS → Except FS (List String × List (String × FetchStatus) × FS)
  | [], fs => .ok ([], [], fs)
  | mod :: rest, fs =>
    match alookup Datasets mod with
    | none => .error fs
    | some entry =>
      let r := conditional_download remote access_token fs entry.repo_id entry.file
      match download_items remote access_token rest r.fs with
      | .error fs1 => .error fs1
      | .ok (succ, outs, fs1) =>
        .ok (if r.success then mod :: succ else succ, (mod, r.status) :: outs, fs1)

/-- `download_weight_datasets(models, access_token)` (lines 219-234):
run the legacy migration, then fetch every plan item in order. -/
def download_weight_datasets (remote : Remote) (access_token : String)
    (consent : Bool) (models : List String) (fs : FS) :
    Except FS (List String × List (String × FetchStatus) × FS) :=
  download_items remote access_token models (migrate_models_ckpt consent fs)

/-- The first loop of `new_config_file_contents` (lines 273-278): scan
the success set for VAE entries, last one seen wins.  A name missing
from `Datasets` raises a `KeyError` (`none`). -/
def find_vae (datasets : Catalog) : List String → Option String → Option (Option String)
  | [], vae => some vae
  | model :: rest, vae =>
    match alookup datasets model with
    | none => none
    | some e => find_vae datasets rest (if e.config = "VAE" then some e.file else vae)

/-- The per-model stanza rewrite inside the second loop of
`new_config_file_contents` (lines 283-296): overwrite the managed
fields, pop any prior default flag, set `vae` when a VAE was found, and
set `default = true` when this is the first model processed. -/
def write_stanza (vae : Option String) (e : DatasetEntry) (old : Stanza)
    (makeDefault : Bool) : Stanza :=
  let s := dictInsert old "description" (.str e.description)
  let s := dictInsert s "weights" (.str (pathJoin Model_dir e.file))
  let s := dictInsert s "config" (.str (pathJoin SD_Configs e.config))
  let s := dictInsert s "width" (.nat e.width)
  let s := dictInsert s "height" (.nat e.height)
  let s := dictPop s "default"
  let s := match vae with
    | some v => dictInsert s "vae" (.str (pathJoin Model_dir v))
    | none => s
  if makeDefault then dictInsert s "default" (.bool true) else s

/-- The second loop of `new_config_file_contents` (lines 280-297):
process the success set in iteration order, skipping VAE entries,
threading the `default_selected` flag. -/
def process_models (datasets : Catalog) (vae : Option String) :
    List String → Config → Bool → Option Config
  | [], conf, _ => some conf
  | model :: rest, conf, default_selected =>
    match alookup datasets model with
    | none => none
    | some e =>
      if e.config = "VAE" then
        process_models datasets vae rest conf default_selected
      else
        let old := (alookup conf model).getD []
        let stanza := write_stanza vae e old (!default_selected)
        process_models datasets vae rest (dictInsert conf model stanza) true

/-- `new_config_file_contents(successfully_downloaded)` (lines
269-298), as a function of the loaded config: find the VAE, then merge
a stanza for every non-VAE artifact of the success set.  The load of
`Config_file` itself happens in `update_config_file` below. -/
def new_config_file_contents (datasets : Catalog) (conf : Config)
    (successfully_downloaded : List String) : Option Config :=
  match find_vae datasets successfully_downloaded none with
  | none => none
  | some vae => process_models datasets vae successfully_downloaded conf false

/-- Injected failure point of a synthesis run: `failTmpWrite` makes the
write of the temporary file raise, `failRename` makes the final
`os.rename` raise.  Failures of the load and of stanza construction
need no injection — they are the `none` results of `loadYaml` and
`new_config_file_contents`. -/
inductive WriteFault where
  | ok
  | failTmpWrite
  | failRename
  deriving DecidableEq, Repr

/-- `update_config_file(successfully_downloaded)` (lines 254-265):
build the new contents, write them to a temporary file in the config
directory, and rename it over the target.  Every exception is caught
and the function returns, leaving the filesystem as it stood. -/
def update_config_file (fault : WriteFault) (fs : FS)
    (successfully_downloaded : List String) : FS :=
  match fsRead fs Config_file with
  | none => fs
  | some fd =>
    match loadYaml fd with
    | none => fs
    | some conf =>
      match new_config_file_contents Datasets conf successfully_downloaded with
      | none => fs
      | some newConf =>
        match fault with
        | .failTmpWrite => fs
        | .failRename => fsWrite fs Tmp_file (.config Config_preamble newConf)
        | .ok =>
          fsRename (fsWrite fs Tmp_file (.config Config_preamble newConf))
            Tmp_file Config_file

/-- The end-to-end synthesis result: load `Config_file`, parse it, and
build the new stanza mapping — `none` when any of those steps raises. -/
def synthesisResult (fs : FS) (successfully_downloaded : List String) : Option Config :=
  (fsRead fs Config_file).bind fun fd =>
    (loadYaml fd).bind fun conf =>
      new_config_file_contents Datasets conf successfully_downloaded

/-- Outcome of the weight-download phase of `__main__`. -/
inductive RunOutcome where
  | exited
  | finished (fs : FS)
  | crashed (fs : FS)
  deriving Repr

/-- The weight phase of `__main__` (lines 437-446), starting from the
value returned by `select_datasets()`.  When selection returned `None`
and the operator confirms the `Quit?` prompt, `sys.exit(0)` runs;
when the operator declines, control falls through to `authenticate()`
and `download_weight_datasets(None, token)`, where
`migrate_models_ckpt()` runs first and then `models.keys()` raises an
uncaught `AttributeError`. -/
def weights_phase (remote : Remote) (access_token : String)
    (consent quitAnswer : Bool) (fault : WriteFault)
    (models : Option (List String)) (fs : FS) : RunOutcome :=
  match models with
  | some ms =>
    match download_weight_datasets remote access_token consent ms fs with
    | .error fs1 => .crashed fs1
    | .ok (succ, _, fs1) => .finished (update_config_file fault fs1 succ)
  | none =>
    if quitAnswer then .exited
    else .crashed (migrate_models_ckpt consent fs)

/-- Whether a stanza carries `default = true`. -/
def isDefaultStanza (s : Stanza) : Bool :=
  decide (alookup s "default" = some (.bool true))

/-- Number of stanzas carrying `default = true`. -/
def countDefaults (c : Config) : Nat :=
  c.countP fun p => isDefaultStanza p.2

/-- The VAE file names contributed by a success set, in iteration
order; the loop of `find_vae` keeps the last of these. -/
def vaeEntriesOf (datasets : Catalog) (sd : List String) : List String :=
  sd.filterMap fun m =>
    match alookup datasets m with
    | some e => if e.config = "VAE" then some e.file else none
    | none => none

/-- The stanza fields the synthesizer manages (overwrites or clears). -/
def managedFields : List String :=
  ["description", "weights", "config", "width", "height", "vae", "default"]

/-- A remote store where every retrieval fails (network down, bad
credential, or missing object). -/
def remoteDown : Remote := fun _ _ _ => none

/-- A remote store where every retrieval succeeds. -/
def remoteUp : Remote := fun _ _ _ => some 7

/-- A remote store that fails exactly for the inpainting repository. -/
def remoteNoInpaint : Remote := fun repo _ _ =>
  if repo = "runwayml/stable-diffusion-inpainting" then none else some 5

/-- A stanza as an operator may have left it: a custom field and a
prior default flag beside one managed field. -/
def sampleStanza : Stanza :=
  [("description", .str "old words"), ("custom", .str "operator data"),
   ("default", .bool true)]

/-- A persisted config holding one stanza whose name is in no catalog. -/
def sampleConfig : Config := [("old-model", sampleStanza)]

/-- A filesystem carrying the sample persisted config. -/
def sampleFS : FS := [(Config_file, .config Config_preamble sampleConfig)]

/-- A filesystem where the 1.5 weights file is already in place. -/
def fsWith15 : FS := [(pathJoin Model_dir "v1-5-pruned-emaonly.ckpt", .blob 3)]

/-- A filesystem holding only the legacy `model.ckpt`. -/
def fsLegacy : FS := [(pathJoin Model_dir "model.ckpt", .blob 9)]

/-- A success set listing 1.4 before 1.5 — legal (dict keys are the
plan's names) but in the reverse of catalog iteration order. -/
def sdReversed : List String := ["stable-diffusion-1.4", "stable-diffusion-1.5"]

/-- Synthesis output for `sampleConfig` and `sdReversed`. -/
def cexOut : Config :=
  (new_config_file_contents Datasets sampleConfig sdReversed).getD []

/-- The catalog entry of the original baseline artifact. -/
def sd14entry : DatasetEntry :=
  { description := "The original Stable Diffusion version 1.4 weight file (4.27 GB)",
    repo_id := "CompVis/stable-diffusion-v-1-4-original",
    config := "v1-inference.yaml",
    file := "sd-v1-4.ckpt",
    recommended := false, width := 512, height := 512 }

/-- The catalog entry of the 1.5 baseline artifact. -/
def sd15entry : DatasetEntry :=
  { description := "The newest Stable Diffusion version 1.5 weight file (4.27 GB)",
    repo_id := "runwayml/stable-diffusion-v1-5",
    config := "v1-inference.yaml",
    file := "v1-5-pruned-emaonly.ckpt",
    recommended := true, width := 512, height := 512 }

/-- Synthesis output for `sampleConfig` and the success set `[stable-diffusion-1.5]`. -/
def out15 : Config :=
  (new_config_file_contents Datasets sampleConfig ["stable-diffusion-1.5"]).getD []

/-- A persisted config where the 1.5 stanza carries an operator-added
custom field beside one managed field. -/
def sampleConfig15 : Config :=
  [("stable-diffusion-1.5",
    [("custom", .str "operator data"), ("description", .str "old words")])]

end Preload

namespace Preload

/-! ## Dictionary and filesystem lemmas -/

theorem alookup_dictInsert_self {α : Type} (d : List (String × α)) (k : String) (v : α) :
    alookup (dictInsert d k v) k = some v := by
  induction d with
  | nil => simp [dictInsert, alookup]
  | cons p rest ih =>
    obtain ⟨k0, v0⟩ := p
    by_cases h : k0 = k
    · simp [dictInsert, h, alookup]
    · simp [dictInsert, h, alookup, ih]

theorem alookup_dictInsert_ne {α : Type} (d : List (String × α)) (k k' : String) (v : α)
    (h : k ≠ k') : alookup (dictInsert d k v) k' = alookup d k' := by
  induction d with
  | nil => simp [dictInsert, alookup, h]
  | cons p rest ih =>
    obtain ⟨k0, v0⟩ := p
    by_cases h0 : k0 = k
    · subst h0
      simp [dictInsert, alookup, h]
    · simp [dictInsert, h0, alookup, ih]

theorem alookup_dictPop_self {α : Type} (d : List (String × α)) (k : String) :
    alookup (dictPop d k) k = none := by
  induction d with
  | nil => simp [dictPop, alookup]
  | cons p rest ih =>
    obtain ⟨k0, v0⟩ := p
    by_cases h : k0 = k
    · subst h
      simpa [dictPop, List.filter_cons] using ih
    · simpa [dictPop, List.filter_cons, bne_iff_ne, h, alookup] using ih

theorem alookup_dictPop_ne {α : Type} (d : List (String × α)) (k k' : String)
    (h : k ≠ k') : alookup (dictPop d k) k' = alookup d k' := by
  induction d with
  | nil => simp [dictPop, alookup]
  | cons p rest ih =>
    obtain ⟨k0, v0⟩ := p
    by_cases h0 : k0 = k
    · subst h0
      have hk' : k0 ≠ k' := h
      simpa [dictPop, List.filter_cons, alookup, hk'] using ih
    · by_cases h1 : k0 = k'
      · simp [dictPop, List.filter_cons, bne_iff_ne, h0, alookup, h1, Ne.symm h]
      · simpa [dictPop, List.filter_cons, bne_iff_ne, h0, alookup, h1] using ih

theorem fsExists_fsWrite_self (fs : FS) (p : String) (d : FileData) :
    fsExists (fsWrite fs p d) p = true := by
  simp [fsExists, fsWrite, fsRead, alookup_dictInsert_self]

theorem fsRead_fsWrite_ne (fs : FS) (p p' : String) (d : FileData) (h : p ≠ p') :
    fsRead (fsWrite fs p d) p' = fsRead fs p' := by
  simp [fsRead, fsWrite, alookup_dictInsert_ne _ _ _ _ h]

theorem fsRead_rename_from_fresh_write (fs : FS) (src dst : String) (d : FileData) :
    fsRead (fsRename (fsWrite fs src d) src dst) dst = some d := by
  have h1 : fsRead (fsWrite fs src d) src = some d := by
    simp [fsRead, fsWrite, alookup_dictInsert_self]
  simp [fsRename, h1, fsRead, fsWrite, alookup_dictInsert_self]

theorem fsExists_fsRename_dst (fs : FS) (src dst : String)
    (h : fsExists fs src = true) : fsExists (fsRename fs src dst) dst = true := by
  unfold fsExists fsRead at h
  rcases hd : alookup fs src with _ | d
  · rw [hd] at h
    simp at h
  · unfold fsRename fsRead
    rw [hd]
    simp [fsWrite, fsExists, fsRead, alookup_dictInsert_self]

/-! ## Stanza rewrite lemmas -/

theorem write_stanza_default_field (vae : Option String) (e : DatasetEntry)
    (old : Stanza) (b : Bool) :
    alookup (write_stanza vae e old b) "default" =
      if b then some (.bool true) else none := by
  unfold write_stanza
  cases b with
  | true => simp [alookup_dictInsert_self]
  | false =>
    cases vae with
    | none => simp [alookup_dictPop_self]
    | some v =>
      simp only [if_neg Bool.false_ne_true, Bool.false_eq_true, if_false]
      rw [alookup_dictInsert_ne _ _ _ _ (by decide)]
      simp [alookup_dictPop_self]

theorem write_stanza_unmanaged_field (vae : Option String) (e : DatasetEntry)
    (old : Stanza) (b : Bool) (f : String) (h : f ∉ managedFields) :
    alookup (write_stanza vae e old b) f = alookup old f := by
  simp only [managedFields, List.mem_cons, not_or] at h
  obtain ⟨h1, h2, h3, h4, h5, h6, h7, -⟩ := h
  unfold write_stanza
  have step : ∀ s : Stanza,
      alookup (match vae with
        | some v => dictInsert s "vae" (.str (pathJoin Model_dir v))
        | none => s) f = alookup s f := by
    intro s
    cases vae with
    | none => rfl
    | some v => exact alookup_dictInsert_ne _ _ _ _ (Ne.symm h6)
  cases b with
  | true =>
    rw [if_pos rfl, alookup_dictInsert_ne _ _ _ _ (Ne.symm h7), step,
      alookup_dictPop_ne _ _ _ (Ne.symm h7),
      alookup_dictInsert_ne _ _ _ _ (Ne.symm h5),
      alookup_dictInsert_ne _ _ _ _ (Ne.symm h4),
      alookup_dictInsert_ne _ _ _ _ (Ne.symm h3),
      alookup_dictInsert_ne _ _ _ _ (Ne.symm h2),
      alookup_dictInsert_ne _ _ _ _ (Ne.symm h1)]
  | false =>
    simp only [Bool.false_eq_true, if_false]
    rw [step, alookup_dictPop_ne _ _ _ (Ne.symm h7),
      alookup_dictInsert_ne _ _ _ _ (Ne.symm h5),
      alookup_dictInsert_ne _ _ _ _ (Ne.symm h4),
      alookup_dictInsert_ne _ _ _ _ (Ne.symm h3),
      alookup_dictInsert_ne _ _ _ _ (Ne.symm h2),
      alookup_dictInsert_ne _ _ _ _ (Ne.symm h1)]

theorem write_stanza_vae_field_some (v : String) (e : DatasetEntry)
    (old : Stanza) (b : Bool) :
    alookup (write_stanza (some v) e old b) "vae" =
      some (.str (pathJoin Model_dir v)) := by
  unfold write_stanza
  cases b with
  | true =>
    rw [if_pos rfl, alookup_dictInsert_ne _ _ _ _ (by decide)]
    exact alookup_dictInsert_self _ _ _
  | false =>
    simp only [Bool.false_eq_true, if_false]
    exact alookup_dictInsert_self _ _ _

theorem write_stanza_vae_field_none (e : DatasetEntry) (old : Stanza) (b : Bool) :
    alookup (write_stanza none e old b) "vae" = alookup old "vae" := by
  unfold write_stanza
  cases b with
  | true =>
    rw [if_pos rfl, alookup_dictInsert_ne _ _ _ _ (by decide),
      alookup_dictPop_ne _ _ _ (by decide),
      alookup_dictInsert_ne _ _ _ _ (by decide),
      alookup_dictInsert_ne _ _ _ _ (by decide),
      alookup_dictInsert_ne _ _ _ _ (by decide),
      alookup_dictInsert_ne _ _ _ _ (by decide),
      alookup_dictInsert_ne _ _ _ _ (by decide)]
  | false =>
    simp only [Bool.false_eq_true, if_false]
    rw [alookup_dictPop_ne _ _ _ (by decide),
      alookup_dictInsert_ne _ _ _ _ (by decide),
      alookup_dictInsert_ne _ _ _ _ (by decide),
      alookup_dictInsert_ne _ _ _ _ (by decide),
      alookup_dictInsert_ne _ _ _ _ (by decide),
      alookup_dictInsert_ne _ _ _ _ (by decide)]

end Preload

namespace Preload

/-! ## Fetch lemmas -/

theorem conditional_download_success_status (remote : Remote) (access_token : String)
    (fs : FS) (repo_id model_name : String) :
    (conditional_download remote access_token fs repo_id model_name).success =
      decide ((conditional_download remote access_token fs repo_id model_name).status
        ≠ FetchStatus.FAILED) := by
  unfold conditional_download
  cases hex : fsExists fs (pathJoin Model_dir model_name) with
  | true => simp [hex]
  | false =>
    cases hr : remote repo_id model_name access_token with
    | none => simp [hex, hr]
    | some blob => simp [hex, hr]

theorem download_items_spec (remote : Remote) (access_token : String)
    (models : List String) (fs : FS)
    (h : ∀ m ∈ models, (alookup Datasets m).isSome) :
    ∃ succ outs fs1,
      download_items remote access_token models fs = .ok (succ, outs, fs1) ∧
      outs.map Prod.fst = models ∧
      succ = (outs.filter fun o => decide (o.2 ≠ FetchStatus.FAILED)).map Prod.fst := by
  induction models generalizing fs with
  | nil => exact ⟨[], [], fs, rfl, rfl, rfl⟩
  | cons m rest ih =>
    have hm : (alookup Datasets m).isSome := h m (List.mem_cons_self m rest)
    rcases he : alookup Datasets m with _ | e
    · rw [he] at hm
      simp at hm
    · obtain ⟨succ, outs, fs1, hd, hmap, hsucc⟩ :=
        ih (conditional_download remote access_token fs e.repo_id e.file).fs
          (fun m' hm' => h m' (List.mem_cons_of_mem _ hm'))
      refine ⟨(if (conditional_download remote access_token fs e.repo_id e.file).success
          then m :: succ else succ),
        (m, (conditional_download remote access_token fs e.repo_id e.file).status) :: outs,
        fs1, ?_, ?_, ?_⟩
      · simp only [download_items, he, hd]
      · simp [hmap]
      · rw [List.filter_cons]
        have hss := conditional_download_success_status remote access_token fs e.repo_id e.file
        cases hs : (conditional_download remote access_token fs e.repo_id e.file).success with
        | true =>
          rw [hs] at hss
          simp [← hss, hsucc]
        | false =>
          rw [hs] at hss
          simp [← hss, hsucc]

/-! ## Claim theorems -/

/-- Claim C1: for every run of config synthesis, if any step before the
final rename fails (config load, stanza construction, serialization or
writing the temporary file), the previously persisted config file's
content is unchanged; the rename of the temporary file over the target
path is the only step that can change the visible config file. -/
theorem update_config_file_atomic (fault : WriteFault) (fs : FS) (sd : List String)
    (h : fault ≠ WriteFault.ok ∨ synthesisResult fs sd = none) :
    fsRead (update_config_file fault fs sd) Config_file = fsRead fs Config_file := by
  rcases hr : fsRead fs Config_file with _ | fd
  · simp [update_config_file, hr]
  · rcases hl : loadYaml fd with _ | conf
    · simp [update_config_file, hr, hl]
    · rcases hn : new_config_file_contents Datasets conf sd with _ | newConf
      · simp [update_config_file, hr, hl, hn]
      · cases fault with
        | ok =>
          exfalso
          rcases h with h | h
          · exact h rfl
          · simp [synthesisResult, hr, hl, hn] at h
        | failTmpWrite => simp [update_config_file, hr, hl, hn]
        | failRename =>
          simp only [update_config_file, hr, hl, hn]
          rw [fsRead_fsWrite_ne fs Tmp_file Config_file _ (by decide), hr]

/-- Witness for C1 at a concrete state: an injected failure while
writing the temporary file leaves the sample config file unchanged. -/
theorem update_config_file_atomic_witness :
    fsRead (update_config_file .failTmpWrite sampleFS ["stable-diffusion-1.5"]) Config_file
      = fsRead sampleFS Config_file :=
  update_config_file_atomic .failTmpWrite sampleFS ["stable-diffusion-1.5"]
    (Or.inl (by decide))

/-- Claim C3: if a file already exists at the artifact's expected local
destination, fetch returns ALREADY_PRESENT without network access or
filesystem modification; hence after a successful fetch, fetching
again returns ALREADY_PRESENT with no network access. -/
theorem conditional_download_idempotent (remote : Remote) (access_token : String)
    (fs : FS) (repo_id model_name : String) :
    (fsExists fs (pathJoin Model_dir model_name) = true →
      conditional_download remote access_token fs repo_id model_name =
        { success := true, status := .ALREADY_PRESENT, fs := fs, network := false }) ∧
    ((conditional_download remote access_token fs repo_id model_name).success = true →
      conditional_download remote access_token
          (conditional_download remote access_token fs repo_id model_name).fs
          repo_id model_name =
        { success := true, status := .ALREADY_PRESENT,
          fs := (conditional_download remote access_token fs repo_id model_name).fs,
          network := false }) := by
  constructor
  · intro h
    unfold conditional_download
    rw [if_pos h]
  · intro h
    cases hex : fsExists fs (pathJoin Model_dir model_name) with
    | true =>
      unfold conditional_download
      rw [if_pos hex, if_pos hex]
    | false =>
      rcases hr : remote repo_id model_name access_token with _ | blob
      · exfalso
        unfold conditional_download at h
        rw [if_neg (by simp [hex]), hr] at h
        exact Bool.false_ne_true h
      · have hfs : (conditional_download remote access_token fs repo_id model_name).fs =
            fsWrite fs (pathJoin Model_dir model_name) (.blob blob) := by
          unfold conditional_download
          rw [if_neg (by simp [hex]), hr]
        rw [hfs]
        unfold conditional_download
        rw [if_pos (fsExists_fsWrite_self fs _ _)]

/-- Witness for C3: with the 1.5 weights file already present and the
network down, fetch still reports ALREADY_PRESENT without touching
anything. -/
theorem conditional_download_idempotent_witness :
    conditional_download remoteDown "" fsWith15
        "runwayml/stable-diffusion-v1-5" "v1-5-pruned-emaonly.ckpt" =
      { success := true, status := .ALREADY_PRESENT, fs := fsWith15, network := false } :=
  (conditional_download_idempotent remoteDown "" fsWith15
    "runwayml/stable-diffusion-v1-5" "v1-5-pruned-emaonly.ckpt").1 (by decide)

/-- Claim C4: a fetch failure never aborts the run — every plan item is
still processed, each gets an outcome in plan order, and the success
set is exactly the plan items whose fetch did not fail, in plan
iteration order. -/
theorem download_weight_datasets_isolates_failures (remote : Remote)
    (access_token : String) (consent : Bool) (models : List String) (fs : FS)
    (h : ∀ m ∈ models, (alookup Datasets m).isSome) :
    ∃ succ outs fs1,
      download_weight_datasets remote access_token consent models fs =
        .ok (succ, outs, fs1) ∧
      outs.map Prod.fst = models ∧
      succ = (outs.filter fun o => decide (o.2 ≠ FetchStatus.FAILED)).map Prod.fst := by
  unfold download_weight_datasets
  exact download_items_spec remote access_token models (migrate_models_ckpt consent fs) h

/-- Witness for C4: a three-item plan where the remote fails exactly
for the second artifact's repository. -/
theorem download_weight_datasets_isolates_failures_witness :
    ∃ succ outs fs1,
      download_weight_datasets remoteNoInpaint "" false
          ["stable-diffusion-1.5", "inpainting-1.5", "stable-diffusion-1.4"] [] =
        .ok (succ, outs, fs1) ∧
      outs.map Prod.fst = ["stable-diffusion-1.5", "inpainting-1.5", "stable-diffusion-1.4"] ∧
      succ = (outs.filter fun o => decide (o.2 ≠ FetchStatus.FAILED)).map Prod.fst :=
  download_weight_datasets_isolates_failures remoteNoInpaint "" false
    ["stable-diffusion-1.5", "inpainting-1.5", "stable-diffusion-1.4"] [] (by decide)

/-- Claim C5 counterexample: when no persisted config file exists,
synthesis does not start from an empty mapping — the load raises, the
exception is caught, and no new config is produced or persisted. -/
theorem missing_config_writes_nothing :
    update_config_file .ok [] ["stable-diffusion-1.5"] = ([] : FS) ∧
    fsRead (update_config_file .ok [] ["stable-diffusion-1.5"]) Config_file = none :=
  ⟨rfl, rfl⟩

/-- Claim C5 as amended: synthesis loads the existing persisted config
when the config file is present and persists the synthesized result;
when no persisted config file exists the load fails, the error is
caught, and nothing is persisted (the filesystem is left unchanged). -/
theorem update_config_file_load_behavior (fs : FS) (sd : List String) :
    (fsRead fs Config_file = none → update_config_file .ok fs sd = fs) ∧
    (∀ p conf out, fsRead fs Config_file = some (.config p conf) →
      new_config_file_contents Datasets conf sd = some out →
      fsRead (update_config_file .ok fs sd) Config_file =
        some (.config Config_preamble out)) := by
  constructor
  · intro h
    unfold update_config_file
    rw [h]
  · intro p conf out h hn
    simp only [update_config_file, h, loadYaml, hn]
    exact fsRead_rename_from_fresh_write fs Tmp_file Config_file _

/-- Witness for C5 as amended: the sample config is loaded and the
synthesized result for the success set `[stable-diffusion-1.5]` gets
persisted at the config path. -/
theorem update_config_file_load_behavior_witness :
    fsRead (update_config_file .ok sampleFS ["stable-diffusion-1.5"]) Config_file =
      some (.config Config_preamble out15) :=
  (update_config_file_load_behavior sampleFS ["stable-diffusion-1.5"]).2
    Config_preamble sampleConfig out15 rfl rfl

/-- Claim C8: legacy migration runs before any fetch of the plan; when
the deprecated file exists and the operator consents it is renamed to
the canonical file name of the original baseline artifact, so a
subsequent fetch of that artifact reports ALREADY_PRESENT without a
network call; when the deprecated file is absent or consent is
withheld, migration changes nothing. -/
theorem migrate_models_ckpt_spec (remote : Remote) (access_token : String)
    (consent : Bool) (models : List String) (fs : FS) (e : DatasetEntry) :
    (fsExists fs (pathJoin Model_dir "model.ckpt") = false →
      migrate_models_ckpt consent fs = fs) ∧
    (consent = false → migrate_models_ckpt consent fs = fs) ∧
    (alookup Datasets "stable-diffusion-1.4" = some e →
      fsExists fs (pathJoin Model_dir "model.ckpt") = true → consent = true →
      conditional_download remote access_token (migrate_models_ckpt consent fs)
          e.repo_id e.file =
        { success := true, status := .ALREADY_PRESENT,
          fs := migrate_models_ckpt consent fs, network := false }) ∧
    (download_weight_datasets remote access_token consent models fs =
      download_items remote access_token models (migrate_models_ckpt consent fs)) := by
  refine ⟨?_, ?_, ?_, rfl⟩
  · intro h
    unfold migrate_models_ckpt
    rw [if_neg (by simp [h])]
  · intro h
    subst h
    unfold migrate_models_ckpt
    rcases halk : alookup Datasets "stable-diffusion-1.4" with _ | e0
    · simp [halk]
    · simp [halk]
  · intro he hex hc
    subst hc
    have hmig : migrate_models_ckpt true fs =
        fsRename fs (pathJoin Model_dir "model.ckpt") (pathJoin Model_dir e.file) := by
      unfold migrate_models_ckpt
      rw [if_pos hex, he]
      rfl
    have hdst : fsExists (migrate_models_ckpt true fs) (pathJoin Model_dir e.file) = true := by
      rw [hmig]
      exact fsExists_fsRename_dst fs _ _ hex
    unfold conditional_download
    rw [if_pos hdst]

/-- Witness for C8: the legacy file present, consent granted, network
down — the fetch for stable-diffusion-1.4 still succeeds as
ALREADY_PRESENT with no network call. -/
theorem migrate_models_ckpt_spec_witness :
    conditional_download remoteDown "" (migrate_models_ckpt true fsLegacy)
        sd14entry.repo_id sd14entry.file =
      { success := true, status := .ALREADY_PRESENT,
        fs := migrate_models_ckpt true fsLegacy, network := false } :=
  (migrate_models_ckpt_spec remoteDown "" true [] fsLegacy sd14entry).2.2.1
    (by decide) (by decide) rfl

/-- Claim C9 (code bug evidence): after selection returns null, the run
exits cleanly only when the operator confirms the `Quit?` prompt; when
the operator declines it, control falls through into
`download_weight_datasets(None, token)` — the legacy migration still
runs and then `models.keys()` raises an uncaught exception, so the run
crashes instead of terminating cleanly. -/
theorem weights_phase_on_null_selection (remote : Remote) (access_token : String)
    (consent : Bool) (fault : WriteFault) (fs : FS) :
    weights_phase remote access_token consent true fault none fs = RunOutcome.exited ∧
    weights_phase remote access_token consent false fault none fs =
      RunOutcome.crashed (migrate_models_ckpt consent fs) :=
  ⟨rfl, rfl⟩

/-- Claim C10: for an empty success set, synthesis rewrites the config
file, and the stanza mapping it persists is exactly the previously
persisted one — no field changed, no default reassigned, no vae added. -/
theorem empty_success_set_round_trip (fs : FS) (p : String) (conf : Config)
    (h : fsRead fs Config_file = some (.config p conf)) :
    new_config_file_contents Datasets conf [] = some conf ∧
    fsRead (update_config_file .ok fs []) Config_file =
      some (.config Config_preamble conf) := by
  refine ⟨rfl, ?_⟩
  have hn : new_config_file_contents Datasets conf [] = some conf := rfl
  simp only [update_config_file, h, loadYaml, hn]
  exact fsRead_rename_from_fresh_write fs Tmp_file Config_file _

/-- Witness for C10 at the sample state. -/
theorem empty_success_set_round_trip_witness :
    new_config_file_contents Datasets sampleConfig [] = some sampleConfig ∧
    fsRead (update_config_file .ok sampleFS []) Config_file =
      some (.config Config_preamble sampleConfig) :=
  empty_success_set_round_trip sampleFS Config_preamble sampleConfig rfl

end Preload

namespace Preload

/-! ## Key and counting lemmas for the synthesis loop -/

theorem getLast?_cons_eq {α : Type} (a : α) (l : List α) :
    (a :: l).getLast? = some (l.getLast?.getD a) := by
  induction l generalizing a with
  | nil => rfl
  | cons b t ih => simp [List.getLast?_cons_cons, ih b]

theorem mem_dictKeys_dictInsert {α : Type} (d : List (String × α)) (k : String) (v : α)
    (x : String) : x ∈ dictKeys (dictInsert d k v) ↔ x ∈ dictKeys d ∨ x = k := by
  induction d with
  | nil => simp [dictInsert, dictKeys]
  | cons p rest ih =>
    obtain ⟨k0, v0⟩ := p
    by_cases h : k0 = k
    · subst h
      simp only [dictInsert, eq_self_iff_true, if_true, ite_true, dictKeys,
        List.map_cons, List.mem_cons]
      tauto
    · simp only [dictInsert, if_neg h, dictKeys, List.map_cons, List.mem_cons]
      rw [show (x ∈ List.map Prod.fst (dictInsert rest k v)) ↔
            (x ∈ dictKeys (dictInsert rest k v)) from Iff.rfl, ih]
      rw [show (x ∈ List.map Prod.fst rest) ↔ (x ∈ dictKeys rest) from Iff.rfl]
      tauto

theorem keys_nodup_dictInsert {α : Type} (d : List (String × α)) (k : String) (v : α)
    (h : (dictKeys d).Nodup) : (dictKeys (dictInsert d k v)).Nodup := by
  induction d with
  | nil => simp [dictInsert, dictKeys]
  | cons p rest ih =>
    obtain ⟨k0, v0⟩ := p
    simp only [dictKeys, List.map_cons, List.nodup_cons] at h
    obtain ⟨hk0, hrest⟩ := h
    by_cases hk : k0 = k
    · subst hk
      simp only [dictInsert, eq_self_iff_true, if_true, ite_true, dictKeys,
        List.map_cons, List.nodup_cons]
      exact ⟨hk0, hrest⟩
    · simp only [dictInsert, if_neg hk, dictKeys, List.map_cons, List.nodup_cons]
      refine ⟨?_, ih hrest⟩
      intro hmem
      rcases (mem_dictKeys_dictInsert rest k v k0).mp hmem with h' | h'
      · exact hk0 h'
      · exact hk h'

theorem countP_dictInsert {α : Type} (d : List (String × α)) (m : String) (st : α)
    (q : String × α → Bool) :
    (dictInsert d m st).countP q +
        (match alookup d m with
         | some old => if q (m, old) then 1 else 0
         | none => 0) =
      d.countP q + (if q (m, st) then 1 else 0) := by
  induction d with
  | nil => simp [dictInsert, alookup, List.countP_cons]
  | cons p rest ih =>
    obtain ⟨k, v⟩ := p
    by_cases hk : k = m
    · subst hk
      simp only [dictInsert, alookup, eq_self_iff_true, if_true, ite_true,
        List.countP_cons]
      omega
    · simp only [dictInsert, if_neg hk, alookup, if_neg hk, List.countP_cons]
      rcases halo : alookup rest m with _ | old
      · rw [halo] at ih
        omega
      · rw [halo] at ih
        omega

theorem countP_exclude_cons (d : Config) (m : String) (rest : List String)
    (hnd : (dictKeys d).Nodup) (hm : m ∉ rest) :
    (d.countP fun p => decide (p.1 ∉ rest) && isDefaultStanza p.2) =
      (d.countP fun p => decide (p.1 ∉ m :: rest) && isDefaultStanza p.2) +
        (match alookup d m with
         | some v => if isDefaultStanza v then 1 else 0
         | none => 0) := by
  induction d with
  | nil => simp [alookup]
  | cons p tail ih =>
    obtain ⟨k, v⟩ := p
    simp only [dictKeys, List.map_cons, List.nodup_cons] at hnd
    obtain ⟨hknotin, htail⟩ := hnd
    by_cases hk : k = m
    · subst hk
      have h1 : (decide (k ∉ rest) : Bool) = true := by simpa using hm
      have h2 : (decide (k ∉ k :: rest) : Bool) = false := by simp
      have htl : (tail.countP fun p => decide (p.1 ∉ rest) && isDefaultStanza p.2) =
          tail.countP fun p => decide (p.1 ∉ k :: rest) && isDefaultStanza p.2 := by
        refine List.countP_congr fun p hp => ?_
        have hpk : p.1 ≠ k := fun hh =>
          hknotin (hh ▸ List.mem_map_of_mem Prod.fst hp)
        simp [List.mem_cons, hpk]
      simp only [List.countP_cons, alookup, eq_self_iff_true, if_true, ite_true,
        h1, h2, htl, Bool.true_and, Bool.false_and]
      cases hd : isDefaultStanza v <;> simp [hd]
    · have hhead : (decide (k ∉ m :: rest) : Bool) = decide (k ∉ rest) := by
        simp [List.mem_cons, hk]
      have htl := ih htail
      simp only [List.countP_cons, alookup, if_neg hk, hhead]
      rcases halo : alookup tail m with _ | old
      · rw [halo] at htl
        omega
      · rw [halo] at htl
        omega

end Preload

namespace Preload

/-! ## Characterization of the synthesis loop -/

theorem process_models_total (datasets : Catalog) (vae : Option String)
    (sd : List String) (conf : Config) (dsel : Bool)
    (h : ∀ m ∈ sd, (alookup datasets m).isSome) :
    ∃ out, process_models datasets vae sd conf dsel = some out := by
  induction sd generalizing conf dsel with
  | nil => exact ⟨conf, rfl⟩
  | cons m rest ih =>
    have hm := h m (List.mem_cons_self m rest)
    rcases he : alookup datasets m with _ | e
    · rw [he] at hm
      simp at hm
    · by_cases hv : e.config = "VAE"
      · obtain ⟨out, hout⟩ := ih conf dsel fun m' h' => h m' (List.mem_cons_of_mem _ h')
        refine ⟨out, ?_⟩
        simp only [process_models, he, hv, eq_self_iff_true, ite_true, if_true]
        exact hout
      · obtain ⟨out, hout⟩ :=
          ih (dictInsert conf m (write_stanza vae e ((alookup conf m).getD []) (!dsel)))
            true fun m' h' => h m' (List.mem_cons_of_mem _ h')
        refine ⟨out, ?_⟩
        simp only [process_models, he, hv, ite_false, if_false]
        exact hout

theorem process_models_lookup_not_mem (datasets : Catalog) (vae : Option String)
    (sd : List String) (conf : Config) (dsel : Bool) (out : Config)
    (hout : process_models datasets vae sd conf dsel = some out)
    (name : String) (hname : name ∉ sd) :
    alookup out name = alookup conf name := by
  induction sd generalizing conf dsel with
  | nil =>
    simp only [process_models, Option.some.injEq] at hout
    rw [hout]
  | cons m rest ih =>
    have hnm : name ≠ m ∧ name ∉ rest := by
      simpa [List.mem_cons, not_or] using hname
    rcases he : alookup datasets m with _ | e
    · simp only [process_models, he] at hout
      exact Option.noConfusion hout
    · by_cases hv : e.config = "VAE"
      · simp only [process_models, he, hv, eq_self_iff_true, ite_true, if_true] at hout
        exact ih conf dsel hout hnm.2
      · simp only [process_models, he, hv, ite_false, if_false] at hout
        rw [ih _ true hout hnm.2, alookup_dictInsert_ne _ _ _ _ (Ne.symm hnm.1)]

theorem process_models_head (datasets : Catalog) (vae : Option String)
    (m : String) (rest : List String) (conf : Config) (e : DatasetEntry)
    (he : alookup datasets m = some e) (hv : ¬ e.config = "VAE") (hm : m ∉ rest)
    (out : Config)
    (hout : process_models datasets vae (m :: rest) conf false = some out) :
    alookup out m = some (write_stanza vae e ((alookup conf m).getD []) true) := by
  simp only [process_models, he, hv, ite_false, if_false, Bool.not_false] at hout
  rw [process_models_lookup_not_mem datasets vae rest _ true out hout m hm,
    alookup_dictInsert_self]

theorem process_models_lookup_mem (datasets : Catalog) (vae : Option String)
    (sd : List String) (conf : Config) (dsel : Bool) (out : Config)
    (hout : process_models datasets vae sd conf dsel = some out)
    (hnd : sd.Nodup) (name : String) (hname : name ∈ sd) (e : DatasetEntry)
    (he : alookup datasets name = some e) (hv : ¬ e.config = "VAE") :
    ∃ b, alookup out name = some (write_stanza vae e ((alookup conf name).getD []) b) := by
  induction sd generalizing conf dsel with
  | nil => simp at hname
  | cons m rest ih =>
    obtain ⟨hmr, hndr⟩ := List.nodup_cons.mp hnd
    rcases List.mem_cons.mp hname with rfl | hmem
    · simp only [process_models, he, hv, ite_false, if_false] at hout
      refine ⟨!dsel, ?_⟩
      rw [process_models_lookup_not_mem datasets vae rest _ true out hout name hmr,
        alookup_dictInsert_self]
    · rcases hem : alookup datasets m with _ | em
      · simp only [process_models, hem] at hout
        exact Option.noConfusion hout
      · by_cases hvm : em.config = "VAE"
        · simp only [process_models, hem, hvm, eq_self_iff_true, ite_true, if_true] at hout
          exact ih conf dsel hout hndr hmem
        · simp only [process_models, hem, hvm, ite_false, if_false] at hout
          have hne : m ≠ name := fun hh => hmr (hh ▸ hmem)
          obtain ⟨b, hb⟩ := ih _ true hout hndr hmem
          rw [alookup_dictInsert_ne _ _ _ _ hne] at hb
          exact ⟨b, hb⟩

theorem find_vae_eq (datasets : Catalog) (sd : List String) (acc : Option String)
    (h : ∀ m ∈ sd, (alookup datasets m).isSome) :
    find_vae datasets sd acc =
      some (((vaeEntriesOf datasets sd).getLast?).elim acc some) := by
  induction sd generalizing acc with
  | nil => simp [find_vae, vaeEntriesOf]
  | cons m rest ih =>
    have hm := h m (List.mem_cons_self m rest)
    rcases he : alookup datasets m with _ | e
    · rw [he] at hm
      simp at hm
    · have htail := ih (if e.config = "VAE" then some e.file else acc)
        fun m' h' => h m' (List.mem_cons_of_mem _ h')
      by_cases hv : e.config = "VAE"
      · simp only [hv, eq_self_iff_true, ite_true, if_true] at htail
        simp only [find_vae, he, hv, eq_self_iff_true, ite_true, if_true]
        rw [htail]
        have hent : vaeEntriesOf datasets (m :: rest) = e.file :: vaeEntriesOf datasets rest := by
          simp [vaeEntriesOf, List.filterMap_cons, he, hv]
        rw [hent, getLast?_cons_eq]
        cases hlast : (vaeEntriesOf datasets rest).getLast? <;> simp [hlast]
      · simp only [hv, ite_false, if_false] at htail
        simp only [find_vae, he, hv, ite_false, if_false]
        rw [htail]
        have hent : vaeEntriesOf datasets (m :: rest) = vaeEntriesOf datasets rest := by
          simp [vaeEntriesOf, List.filterMap_cons, he, hv]
        rw [hent]

end Preload

namespace Preload

theorem process_models_countDefaults (datasets : Catalog) (vae : Option String)
    (sd : List String) (conf : Config) (dsel : Bool) (out : Config)
    (hout : process_models datasets vae sd conf dsel = some out)
    (hnd : sd.Nodup) (hk : (dictKeys conf).Nodup)
    (hmod : ∀ m ∈ sd, ∃ e, alookup datasets m = some e ∧ ¬ e.config = "VAE") :
    countDefaults out =
      (conf.countP fun p => decide (p.1 ∉ sd) && isDefaultStanza p.2) +
        (if !dsel && !sd.isEmpty then 1 else 0) := by
  induction sd generalizing conf dsel with
  | nil =>
    simp only [process_models, Option.some.injEq] at hout
    subst hout
    have hall : (conf.countP fun p => decide (p.1 ∉ ([] : List String)) && isDefaultStanza p.2)
        = conf.countP fun p => isDefaultStanza p.2 :=
      List.countP_congr fun p _ => by simp
    simp [countDefaults, hall]
  | cons m rest ih =>
    obtain ⟨e, he, hv⟩ := hmod m (List.mem_cons_self m rest)
    obtain ⟨hmr, hndr⟩ := List.nodup_cons.mp hnd
    simp only [process_models, he, hv, ite_false, if_false] at hout
    have hknew := keys_nodup_dictInsert conf m
      (write_stanza vae e ((alookup conf m).getD []) (!dsel)) hk
    have hrec := ih _ true hout hndr hknew
      fun m' h' => hmod m' (List.mem_cons_of_mem _ h')
    rw [hrec]
    have hins := countP_dictInsert conf m
      (write_stanza vae e ((alookup conf m).getD []) (!dsel))
      fun p => decide (p.1 ∉ rest) && isDefaultStanza p.2
    have hexc := countP_exclude_cons conf m rest hk hmr
    have hdm : (decide (m ∉ rest) : Bool) = true := by simpa using hmr
    have hdefst : isDefaultStanza (write_stanza vae e ((alookup conf m).getD []) (!dsel))
        = !dsel := by
      simp only [isDefaultStanza, write_stanza_default_field]
      cases dsel <;> simp
    simp only [hdm, hdefst, Bool.true_and] at hins
    clear hrec hout hknew hdm hdefst
    rcases halo : alookup conf m with _ | old
    · rw [halo] at hins hexc
      cases dsel
      · simp [List.isEmpty_cons] at hins hexc ⊢
        omega
      · simp [List.isEmpty_cons] at hins hexc ⊢
        omega
    · rw [halo] at hins hexc
      cases dsel
      · simp [List.isEmpty_cons] at hins hexc ⊢
        omega
      · simp [List.isEmpty_cons] at hins hexc ⊢
        omega

/-- Claim C2 counterexample: for the pre-existing config `sampleConfig`
(whose only stanza is outside the success set and carries a default
flag) and the success set `sdReversed` (1.4 listed before 1.5), the
synthesized config carries TWO default flags, the newly defaulted
stanza is `stable-diffusion-1.4` — the first of the success set in its
own iteration order, not `stable-diffusion-1.5`, the first in catalog
iteration order. -/
theorem default_flag_counterexample :
    countDefaults cexOut = 2 ∧
    alookup ((alookup cexOut "old-model").getD []) "default" = some (.bool true) ∧
    alookup ((alookup cexOut "stable-diffusion-1.4").getD []) "default" = some (.bool true) ∧
    alookup ((alookup cexOut "stable-diffusion-1.5").getD []) "default" = none := by
  refine ⟨by decide, by decide, by decide, by decide⟩

/-- Claim C2 as amended: for every non-empty, duplicate-free success
set of MODEL-kind catalog artifacts and every pre-existing persisted
config in which no stanza outside the success set carries
`default = true`, the synthesized config has exactly one stanza with
`default = true`, and it is the stanza of the first artifact in
success-set iteration order (the order in which the fetch loop built
the success set, which the pipeline builds in catalog order). -/
theorem new_config_exactly_one_default (conf : Config) (sd : List String)
    (hne : sd ≠ []) (hnd : sd.Nodup) (hk : (dictKeys conf).Nodup)
    (hmod : ∀ m ∈ sd, ∃ e, alookup Datasets m = some e ∧ ¬ e.config = "VAE")
    (hout : ∀ p ∈ conf, p.1 ∉ sd → ¬ alookup p.2 "default" = some (.bool true)) :
    ∃ out, new_config_file_contents Datasets conf sd = some out ∧
      countDefaults out = 1 ∧
      ∀ first, sd.head? = some first →
        alookup ((alookup out first).getD []) "default" = some (.bool true) := by
  have hsome : ∀ m ∈ sd, (alookup Datasets m).isSome := fun m hm => by
    obtain ⟨e, he, -⟩ := hmod m hm
    simp [he]
  have hvae := find_vae_eq Datasets sd none hsome
  obtain ⟨out, hp⟩ := process_models_total Datasets
    (((vaeEntriesOf Datasets sd).getLast?).elim none some) sd conf false hsome
  refine ⟨out, ?_, ?_, ?_⟩
  · simp only [new_config_file_contents, hvae]
    exact hp
  · rw [process_models_countDefaults Datasets _ sd conf false out hp hnd hk hmod]
    have hzero : (conf.countP fun p => decide (p.1 ∉ sd) && isDefaultStanza p.2) = 0 := by
      rw [List.countP_eq_zero]
      intro p hpmem
      by_cases hin : p.1 ∈ sd
      · simp [hin]
      · simp [hin, isDefaultStanza, hout p hpmem hin]
    rw [hzero]
    rcases sd with _ | ⟨m, rest⟩
    · exact absurd rfl hne
    · simp
  · intro first hfirst
    rcases sd with _ | ⟨m, rest⟩
    · exact absurd rfl hne
    · obtain rfl : m = first := by simpa using hfirst
      obtain ⟨e, he, hv⟩ := hmod m (List.mem_cons_self m rest)
      obtain ⟨hmr, -⟩ := List.nodup_cons.mp hnd
      rw [process_models_head Datasets _ m rest conf e he hv hmr out hp]
      simp [write_stanza_default_field]

/-- Witness for C2 as amended: one MODEL artifact, a pre-existing
config whose stanza carries no default. -/
theorem new_config_exactly_one_default_witness :
    ∃ out, new_config_file_contents Datasets
        [("old-model", [("custom", YamlVal.str "x")])] ["stable-diffusion-1.5"] = some out ∧
      countDefaults out = 1 ∧
      ∀ first, (["stable-diffusion-1.5"] : List String).head? = some first →
        alookup ((alookup out first).getD []) "default" = some (.bool true) :=
  new_config_exactly_one_default [("old-model", [("custom", YamlVal.str "x")])]
    ["stable-diffusion-1.5"] (by decide) (by decide) (by decide)
    (fun m hm => by
      simp only [List.mem_singleton] at hm
      subst hm
      exact ⟨_, rfl, by decide⟩)
    (fun p hp hnin => by
      simp only [List.mem_singleton] at hp
      subst hp
      decide)

end Preload

namespace Preload

/-- Claim C6: for every existing stanza whose name is in the success
set, synthesis overwrites only the managed fields (description,
weights, config, width, height, default, and vae when applicable);
every other field already present in that stanza is preserved
unchanged in the output config. -/
theorem merge_preserves_unmanaged_fields (conf : Config) (sd : List String)
    (m : String) (st0 : Stanza) (f : String)
    (hnd : sd.Nodup) (hsome : ∀ m' ∈ sd, (alookup Datasets m').isSome)
    (hm : m ∈ sd) (e : DatasetEntry) (he : alookup Datasets m = some e)
    (hv : ¬ e.config = "VAE") (hst : alookup conf m = some st0)
    (hf : f ∉ managedFields) :
    ∃ out, new_config_file_contents Datasets conf sd = some out ∧
      alookup ((alookup out m).getD []) f = alookup st0 f := by
  have hvae := find_vae_eq Datasets sd none hsome
  obtain ⟨out, hp⟩ := process_models_total Datasets
    (((vaeEntriesOf Datasets sd).getLast?).elim none some) sd conf false hsome
  obtain ⟨b, hb⟩ := process_models_lookup_mem Datasets _ sd conf false out hp hnd
    m hm e he hv
  refine ⟨out, ?_, ?_⟩
  · simp only [new_config_file_contents, hvae]
    exact hp
  · rw [hb, hst]
    simp only [Option.getD_some]
    exact write_stanza_unmanaged_field _ e st0 b f hf

/-- Witness for C6: the 1.5 stanza of `sampleConfig15` keeps its
operator-added `custom` field after synthesis rewrites it. -/
theorem merge_preserves_unmanaged_fields_witness :
    ∃ out, new_config_file_contents Datasets sampleConfig15 ["stable-diffusion-1.5"]
        = some out ∧
      alookup ((alookup out "stable-diffusion-1.5").getD []) "custom" =
        alookup [("custom", YamlVal.str "operator data"),
          ("description", YamlVal.str "old words")] "custom" :=
  merge_preserves_unmanaged_fields sampleConfig15 ["stable-diffusion-1.5"]
    "stable-diffusion-1.5"
    [("custom", YamlVal.str "operator data"), ("description", YamlVal.str "old words")]
    "custom" (by decide) (by decide) (by decide) sd15entry rfl (by decide) rfl (by decide)

/-- Claim C7: the auxiliary decoder path used by synthesis is the local
path of the last AUXILIARY_DECODER (VAE) artifact in success-set
iteration order (last seen wins); every MODEL-kind stanza written in
the run receives a `vae` equal to that path; when the success set has
no VAE artifact, synthesis sets no `vae` (each written stanza keeps
whatever `vae` its pre-existing stanza had). -/
theorem vae_reference_propagation (conf : Config) (sd : List String)
    (hnd : sd.Nodup) (hsome : ∀ m ∈ sd, (alookup Datasets m).isSome) :
    find_vae Datasets sd none =
      some (((vaeEntriesOf Datasets sd).getLast?).elim none some) ∧
    ∃ out, new_config_file_contents Datasets conf sd = some out ∧
      ∀ m ∈ sd, ∀ e, alookup Datasets m = some e → ¬ e.config = "VAE" →
        alookup ((alookup out m).getD []) "vae" =
          match (vaeEntriesOf Datasets sd).getLast? with
          | some v => some (.str (pathJoin Model_dir v))
          | none => alookup ((alookup conf m).getD []) "vae" := by
  have hvae := find_vae_eq Datasets sd none hsome
  obtain ⟨out, hp⟩ := process_models_total Datasets
    (((vaeEntriesOf Datasets sd).getLast?).elim none some) sd conf false hsome
  refine ⟨hvae, out, ?_, ?_⟩
  · simp only [new_config_file_contents, hvae]
    exact hp
  · intro m hm e he hv
    obtain ⟨b, hb⟩ := process_models_lookup_mem Datasets _ sd conf false out hp hnd
      m hm e he hv
    rw [hb]
    simp only [Option.getD_some]
    rcases hlast : (vaeEntriesOf Datasets sd).getLast? with _ | v
    · exact write_stanza_vae_field_none e ((alookup conf m).getD []) b
    · exact write_stanza_vae_field_some v e ((alookup conf m).getD []) b

/-- Witness for C7: a success set of two MODEL artifacts and one VAE
artifact over an empty prior config. -/
theorem vae_reference_propagation_witness :
    find_vae Datasets
        ["stable-diffusion-1.5", "inpainting-1.5", "ft-mse-improved-autoencoder-840000"]
        none =
      some (((vaeEntriesOf Datasets
        ["stable-diffusion-1.5", "inpainting-1.5",
          "ft-mse-improved-autoencoder-840000"]).getLast?).elim none some) ∧
    ∃ out, new_config_file_contents Datasets []
        ["stable-diffusion-1.5", "inpainting-1.5", "ft-mse-improved-autoencoder-840000"]
        = some out ∧
      ∀ m ∈ ["stable-diffusion-1.5", "inpainting-1.5",
          "ft-mse-improved-autoencoder-840000"],
        ∀ e, alookup Datasets m = some e → ¬ e.config = "VAE" →
        alookup ((alookup out m).getD []) "vae" =
          match (vaeEntriesOf Datasets ["stable-diffusion-1.5", "inpainting-1.5",
            "ft-mse-improved-autoencoder-840000"]).getLast? with
          | some v => some (.str (pathJoin Model_dir v))
          | none => alookup ((alookup ([] : Config) m).getD []) "vae" :=
  vae_reference_propagation []
    ["stable-diffusion-1.5", "inpainting-1.5", "ft-mse-improved-autoencoder-840000"]
    (by decide) (by decide)

end Preload
